import Mathlib

/-
Verification development for the LabGuard camera-monitoring backend
(backend/camera_monitoring: config.py, camera_processor.py,
detectors/gaze_estimator.py, utils/geometry.py).

The Python code is shallowly embedded: Python floats are modelled by exact
rationals (ℚ) wherever the code only adds/multiplies/divides, and by ℝ where
Euclidean distances (square roots) occur; Python dicts keyed by strings are
modelled as functions `String → Option _`; fallible operations return Option.
-/

namespace LabGuard

/-! ### config.py constants (lines 39-52, 63, 181-192) -/

/-- config.py line 39: `GAZE_LEFT_THRESHOLD = -20.0`. -/
def GAZE_LEFT_THRESHOLD : ℚ := -20

/-- config.py line 40: `GAZE_RIGHT_THRESHOLD = 20.0`. -/
def GAZE_RIGHT_THRESHOLD : ℚ := 20

/-- config.py line 41: `GAZE_CENTER_THRESHOLD = 12.0`. -/
def GAZE_CENTER_THRESHOLD : ℚ := 12

/-- config.py line 47: `GAZE_SMOOTHING_WINDOW = 3`. -/
def GAZE_SMOOTHING_WINDOW : ℕ := 3

/-- config.py line 52: `GAZE_MIN_QUALITY = 0.3`. -/
def GAZE_MIN_QUALITY : ℚ := 3/10

/-- config.py line 63: `BLINK_EAR_THRESHOLD = 0.25`. -/
def BLINK_EAR_THRESHOLD : ℚ := 1/4

/-- config.py line 181: `SNAPSHOT_COOLDOWN_SECONDS = 7`. -/
def SNAPSHOT_COOLDOWN_SECONDS : ℚ := 7

/-- config.py line 192: `MAX_SNAPSHOTS_PER_SESSION = 100`. -/
def MAX_SNAPSHOTS_PER_SESSION : ℕ := 100

/-- config.py line 174: `ENABLE_VIOLATION_SNAPSHOTS = True`. -/
def ENABLE_VIOLATION_SNAPSHOTS : Bool := true

/-! ### config.py `get_gaze_direction` (lines 235-269) -/

/-- config.py lines 235-269: classify the (smoothed) horizontal gaze angle.
The cascade of `if` statements is reproduced verbatim: extreme left, extreme
right, center band, then the sign decides the two gap bands. -/
def get_gaze_direction (horizontal_angle : ℚ) : String :=
  if horizontal_angle < GAZE_LEFT_THRESHOLD then "left"
  else if horizontal_angle > GAZE_RIGHT_THRESHOLD then "right"
  else if -GAZE_CENTER_THRESHOLD ≤ horizontal_angle ∧ horizontal_angle ≤ GAZE_CENTER_THRESHOLD then "center"
  else if horizontal_angle < 0 then "left"
  else "right"

/-! ### gaze_estimator.py EMA smoothing (lines 76-79 and 289-304) -/

/-- gaze_estimator.py line 78: `self.alpha = 2.0 / (self.smoothing_window + 1.0)`. -/
def ema_alpha (smoothing_window : ℕ) : ℚ := 2 / (smoothing_window + 1)

/-- gaze_estimator.py lines 289-304 (`_smooth_gaze_angle`): the EMA state is
`None` before the first sample (seeded with the raw value), and afterwards
updated as `alpha * angle + (1 - alpha) * ema_angle`. The returned value is
also the new state. -/
def smooth_gaze_angle (alpha : ℚ) (ema_angle : Option ℚ) (angle : ℚ) : ℚ :=
  match ema_angle with
  | none => angle
  | some e => alpha * angle + (1 - alpha) * e

/-- Feeding a sequence of raw angles through `_smooth_gaze_angle`, collecting
the per-frame smoothed outputs (the state after each call is `some` of the
value just returned). -/
def run_smoothing (alpha : ℚ) : Option ℚ → List ℚ → List ℚ
  | _, [] => []
  | st, a :: rest =>
      let out := smooth_gaze_angle alpha st a
      out :: run_smoothing alpha (some out) rest

/-! ### gaze_estimator.py quality history and rejection gate
(lines 213-219 and 306-315) -/

/-- gaze_estimator.py lines 306-310 (`_push_quality`): append the score, then
pop the front if the history has grown beyond 10 entries. -/
def push_quality (quality_history : List ℚ) (quality : ℚ) : List ℚ :=
  if (quality_history ++ [quality]).length > 10 then (quality_history ++ [quality]).drop 1
  else quality_history ++ [quality]

/-- gaze_estimator.py lines 312-315 (`_avg_quality`): mean of the history,
0.0 when empty. -/
def avg_quality (quality_history : List ℚ) : ℚ :=
  if quality_history = [] then 0 else quality_history.sum / quality_history.length

/-- gaze_estimator.py lines 213-219 (`estimate_gaze`, quality check): the
current score is pushed first; the sample is then rejected (gaze not
detected) only when `quality_score < 0.2` AND the rolling average is below
`GAZE_MIN_QUALITY`. Returns (gaze_detected, new history). -/
def gaze_quality_gate (quality_history : List ℚ) (quality_score : ℚ) : Bool × List ℚ :=
  let h := push_quality quality_history quality_score
  if quality_score < 1/5 ∧ avg_quality h < GAZE_MIN_QUALITY then (false, h) else (true, h)

/-! ### geometry.py coordinate transformations (lines 224-267) -/

/-- geometry.py lines 224-244 (`normalize_to_image_coords`): multiply the two
coordinates by the image dimensions (unconditionally). -/
def normalize_to_image_coords (normalized_point : ℚ × ℚ) (image_width image_height : ℤ) : ℚ × ℚ :=
  (normalized_point.1 * image_width, normalized_point.2 * image_height)

/-- geometry.py lines 247-267 (`image_to_normalized_coords`): divide by the
image dimensions, but only when both are positive; otherwise the point is
returned unchanged. -/
def image_to_normalized_coords (pixel_point : ℚ × ℚ) (image_width image_height : ℤ) : ℚ × ℚ :=
  if 0 < image_width ∧ 0 < image_height then
    (pixel_point.1 / image_width, pixel_point.2 / image_height)
  else pixel_point

/-! ### gaze_estimator.py `detect_blink` (lines 464-509) -/

/-- Result record of `detect_blink` (the three EAR fields of the returned
dict are just the inputs echoed back and are omitted). -/
structure BlinkResult where
  is_blinking : Bool
  left_eye_closed : Bool
  right_eye_closed : Bool
  both_eyes_closed : Bool
deriving DecidableEq, Repr

/-- gaze_estimator.py lines 464-509 (`detect_blink`): when `avg_ear` is
present, the blink flag and both per-eye closed flags are all computed from
the average alone; only when `avg_ear` is absent are the individual EARs
consulted. The returned per-eye flags are forced to False when the
corresponding EAR is absent (`left_eye_closed if left_ear is not None else
False`). -/
def detect_blink (left_ear right_ear avg_ear : Option ℚ) : BlinkResult :=
  let flags : Bool × Bool × Bool :=
    match avg_ear with
    | some a =>
        (decide (a < BLINK_EAR_THRESHOLD), decide (a < BLINK_EAR_THRESHOLD),
          decide (a < BLINK_EAR_THRESHOLD))
    | none =>
        let lc : Bool := match left_ear with
          | some l => decide (l < BLINK_EAR_THRESHOLD)
          | none => false
        let rc : Bool := match right_ear with
          | some r => decide (r < BLINK_EAR_THRESHOLD)
          | none => false
        (lc || rc, lc, rc)
  let both : Bool :=
    (match left_ear with
      | some l => decide (l < BLINK_EAR_THRESHOLD)
      | none => false) &&
    (match right_ear with
      | some r => decide (r < BLINK_EAR_THRESHOLD)
      | none => false)
  { is_blinking := flags.1
    left_eye_closed := if left_ear.isSome then flags.2.1 else false
    right_eye_closed := if right_ear.isSome then flags.2.2 else false
    both_eyes_closed := both }

/-! ### camera_processor.py snapshot engine (lines 98-104, 149-245)

Wall-clock time (`time.time()`) is modelled as a rational supplied with each
frame; all `time.time()` calls made while processing one frame return that
frame's time. The `snapshot_cooldowns` dict is a function
`String → Option ℚ` (absent key = `None`, read back with default 0). -/

/-- Snapshot-related configuration read by the engine (config.py lines
174-192). -/
structure SnapCfg where
  enable_snapshots : Bool
  cooldown_seconds : ℚ
  max_per_session : ℕ

/-- The config.py defaults: snapshots on, 7 s cooldown, cap 100. -/
def default_snap_cfg : SnapCfg :=
  { enable_snapshots := ENABLE_VIOLATION_SNAPSHOTS
    cooldown_seconds := SNAPSHOT_COOLDOWN_SECONDS
    max_per_session := MAX_SNAPSHOTS_PER_SESSION }

/-- Mutable snapshot state of a `CameraProcessor` (lines 98-103):
the capture-worthy violation set, the per-type last-capture time dict, and
the session capture counter. -/
structure SnapState where
  snapshot_violations : List String
  snapshot_cooldowns : String → Option ℚ
  snapshot_count : ℕ

/-- Session-start state (lines 102-103): empty cooldown dict, zero counter. -/
def initial_snap_state (snapshot_violations : List String) : SnapState :=
  { snapshot_violations := snapshot_violations
    snapshot_cooldowns := fun _ => none
    snapshot_count := 0 }

/-- camera_processor.py lines 149-175 (`_can_take_snapshot`): feature flag,
capture-worthy set membership, session cap (`cap > 0 and count >= cap`
rejects), then the cooldown test `now - last < cooldown` with `last`
defaulting to 0 for a type never captured. -/
def can_take_snapshot (cfg : SnapCfg) (st : SnapState) (violation_type : String) (now : ℚ) : Bool :=
  if cfg.enable_snapshots = false then false
  else if violation_type ∉ st.snapshot_violations then false
  else if 0 < cfg.max_per_session ∧ cfg.max_per_session ≤ st.snapshot_count then false
  else if now - ((st.snapshot_cooldowns violation_type).getD 0) < cfg.cooldown_seconds then false
  else true

/-- camera_processor.py lines 177-215 (`_take_snapshot`): attempt to persist
the frame (`write_ok` models whether `cv2.imwrite` succeeded and no exception
was raised). Only on success are the cooldown entry and counter updated and a
path returned; on failure the state is returned untouched with `None`. -/
def take_snapshot (st : SnapState) (violation_type : String) (now : ℚ) (write_ok : Bool) :
    SnapState × Option String :=
  if write_ok then
    ({ st with
        snapshot_cooldowns := fun v =>
          if v = violation_type then some now else st.snapshot_cooldowns v
        snapshot_count := st.snapshot_count + 1 },
      some violation_type)
  else (st, none)

/-- camera_processor.py lines 237-243: the loop body of
`_process_violation_snapshots` over the ordered violation (type, active)
pairs; captured types are collected in processing order. -/
def snapshot_pass (cfg : SnapCfg) (now : ℚ) (write_ok : String → Bool) :
    SnapState → List (String × Bool) → SnapState × List String
  | st, [] => (st, [])
  | st, (v, active) :: rest =>
    if active = true ∧ can_take_snapshot cfg st v now = true then
      let r := take_snapshot st v now (write_ok v)
      let out := snapshot_pass cfg now write_ok r.1 rest
      match r.2 with
      | some _ => (out.1, v :: out.2)
      | none => out
    else snapshot_pass cfg now write_ok st rest

/-- camera_processor.py lines 217-245 (`_process_violation_snapshots`):
early return when snapshots are disabled, otherwise the loop above. -/
def process_violation_snapshots (cfg : SnapCfg) (st : SnapState) (now : ℚ)
    (violations : List (String × Bool)) (write_ok : String → Bool) :
    SnapState × List String :=
  if cfg.enable_snapshots = false then (st, [])
  else snapshot_pass cfg now write_ok st violations

/-- One processed frame, as seen by the snapshot engine: its wall-clock time,
its violation flags in dict order, and which types' image writes would
succeed. -/
structure SnapFrame where
  time : ℚ
  violations : List (String × Bool)
  write_ok : String → Bool

/-- Run the snapshot engine over a whole session of frames, collecting the
capture events as (time, violation type) pairs in order of occurrence. -/
def run_session (cfg : SnapCfg) : SnapState → List SnapFrame → SnapState × List (ℚ × String)
  | st, [] => (st, [])
  | st, f :: fs =>
    let r := process_violation_snapshots cfg st f.time f.violations f.write_ok
    let out := run_session cfg r.1 fs
    (out.1, r.2.map (fun v => (f.time, v)) ++ out.2)

/-- Any two capture events of the same violation type are at least
`cooldown` seconds apart (events are listed in order of occurrence). -/
def captures_separated (cooldown : ℚ) (events : List (ℚ × String)) : Prop :=
  events.Pairwise fun e e' => e.2 = e'.2 → e.1 + cooldown ≤ e'.1

/-! ### config.py validation (lines 24-31, 81-118, 296-341) and
camera_processor.py `initialize` (lines 257-301) -/

/-- The configuration values consulted by `validate_config` together with the
feature flags consulted by `CameraProcessor.initialize`. -/
structure Config where
  PHONE_CONFIDENCE_THRESHOLD : ℚ
  PERSON_CONFIDENCE_THRESHOLD : ℚ
  GAZE_LEFT_THRESHOLD : ℚ
  GAZE_RIGHT_THRESHOLD : ℚ
  HEAD_FACING_SCREEN_YAW_MIN : ℚ
  HEAD_FACING_SCREEN_YAW_MAX : ℚ
  HEAD_FACING_SCREEN_PITCH_MIN : ℚ
  HEAD_FACING_SCREEN_PITCH_MAX : ℚ
  CAMERA_WIDTH : ℤ
  CAMERA_HEIGHT : ℤ
  TARGET_FPS : ℤ
  FRAME_SKIP : ℤ
  ENABLE_PHONE_DETECTION : Bool
  ENABLE_PERSON_COUNTING : Bool
  ENABLE_HEAD_POSE_DETECTION : Bool
  ENABLE_GAZE_DETECTION : Bool
  ENABLE_BLINK_DETECTION : Bool

/-- The literal values assigned in config.py. -/
def default_config : Config :=
  { PHONE_CONFIDENCE_THRESHOLD := 1/2
    PERSON_CONFIDENCE_THRESHOLD := 3/5
    GAZE_LEFT_THRESHOLD := -20
    GAZE_RIGHT_THRESHOLD := 20
    HEAD_FACING_SCREEN_YAW_MIN := -30
    HEAD_FACING_SCREEN_YAW_MAX := 30
    HEAD_FACING_SCREEN_PITCH_MIN := -35
    HEAD_FACING_SCREEN_PITCH_MAX := 20
    CAMERA_WIDTH := 640
    CAMERA_HEIGHT := 480
    TARGET_FPS := 30
    FRAME_SKIP := 1
    ENABLE_PHONE_DETECTION := true
    ENABLE_PERSON_COUNTING := true
    ENABLE_HEAD_POSE_DETECTION := true
    ENABLE_GAZE_DETECTION := true
    ENABLE_BLINK_DETECTION := true }

/-- config.py lines 296-334 (`validate_config`): accumulate error strings in
source order; `is_valid = len(errors) == 0`. -/
def validate_config (c : Config) : Bool × List String :=
  let errors : List String :=
    (if ¬(0 ≤ c.PHONE_CONFIDENCE_THRESHOLD ∧ c.PHONE_CONFIDENCE_THRESHOLD ≤ 1) then
      ["PHONE_CONFIDENCE_THRESHOLD must be between 0.0 and 1.0"] else []) ++
    (if ¬(0 ≤ c.PERSON_CONFIDENCE_THRESHOLD ∧ c.PERSON_CONFIDENCE_THRESHOLD ≤ 1) then
      ["PERSON_CONFIDENCE_THRESHOLD must be between 0.0 and 1.0"] else []) ++
    (if c.GAZE_LEFT_THRESHOLD ≥ c.GAZE_RIGHT_THRESHOLD then
      ["GAZE_LEFT_THRESHOLD must be less than GAZE_RIGHT_THRESHOLD"] else []) ++
    (if c.HEAD_FACING_SCREEN_YAW_MIN ≥ c.HEAD_FACING_SCREEN_YAW_MAX then
      ["HEAD_FACING_SCREEN_YAW_MIN must be less than HEAD_FACING_SCREEN_YAW_MAX"] else []) ++
    (if c.HEAD_FACING_SCREEN_PITCH_MIN ≥ c.HEAD_FACING_SCREEN_PITCH_MAX then
      ["HEAD_FACING_SCREEN_PITCH_MIN must be less than HEAD_FACING_SCREEN_PITCH_MAX"] else []) ++
    (if c.CAMERA_WIDTH ≤ 0 ∨ c.CAMERA_HEIGHT ≤ 0 then
      ["Camera dimensions must be positive"] else []) ++
    (if c.TARGET_FPS ≤ 0 then
      ["TARGET_FPS must be positive"] else []) ++
    (if c.FRAME_SKIP < 1 then
      ["FRAME_SKIP must be at least 1"] else [])
  (errors.length == 0, errors)

/-- Outcome of importing config.py (lines 337-341): `warns` records whether
the `UserWarning` fired; `loaded` records that the module finished loading.
`warnings.warn` with a `UserWarning` does not raise, so loading always
completes — validation failure is not fatal at import time. -/
structure ModuleLoadResult where
  warns : Bool
  loaded : Bool
deriving DecidableEq, Repr

/-- config.py lines 337-341: validate on import; warn (only) if invalid. -/
def config_module_load (c : Config) : ModuleLoadResult :=
  { warns := !(validate_config c).1, loaded := true }

/-- Availability of the external resources that
`CameraProcessor.initialize` actually checks (camera opens, YOLO model
loads, MediaPipe face mesh initializes). -/
structure InitEnv where
  camera_ok : Bool
  object_model_ok : Bool
  face_mesh_ok : Bool

/-- camera_processor.py lines 257-301 (`initialize`): open the camera, then
load whichever detectors the feature flags enable (the gaze estimator
constructor always succeeds). Configuration validity is never consulted. -/
def initialize_processor (c : Config) (env : InitEnv) : Bool :=
  if env.camera_ok = false then false
  else if (c.ENABLE_PHONE_DETECTION || c.ENABLE_PERSON_COUNTING) = true ∧ env.object_model_ok = false then false
  else if (c.ENABLE_HEAD_POSE_DETECTION || c.ENABLE_GAZE_DETECTION) = true ∧ env.face_mesh_ok = false then false
  else true

/-! ### Eye Aspect Ratio (gaze_estimator.py lines 408-462,
geometry.py lines 600-629)

Points are pairs of reals; `euclidean_distance` is geometry.py's
`np.linalg.norm` of the difference of two 2-D points. -/

/-- geometry.py lines 43-54 (`euclidean_distance`) for 2-D points. -/
noncomputable def euclidean_distance (p1 p2 : ℝ × ℝ) : ℝ :=
  Real.sqrt ((p1.1 - p2.1) ^ 2 + (p1.2 - p2.2) ^ 2)

/-- gaze_estimator.py lines 408-462 (`_calculate_eye_ear`): the per-eye EAR
used by the pipeline. Guard is an exact `horizontal == 0` comparison
returning `None`; otherwise `(vertical_1 + vertical_2) / (2.0 * horizontal)`. -/
noncomputable def calculate_eye_ear (outer inner top bottom top_inner bottom_inner : ℝ × ℝ) :
    Option ℝ :=
  let vertical_1 := euclidean_distance top bottom
  let vertical_2 := euclidean_distance top_inner bottom_inner
  let horizontal := euclidean_distance outer inner
  if horizontal = 0 then none
  else some ((vertical_1 + vertical_2) / (2 * horizontal))

/-- geometry.py lines 600-629 (`calculate_ear_from_coords`): same formula,
but the guard is `h < 1e-6` and the guarded value is the float `0.0`, not an
absent value. -/
noncomputable def calculate_ear_from_coords (outer inner top bottom top_inner bottom_inner : ℝ × ℝ) :
    ℝ :=
  let v1 := euclidean_distance top bottom
  let v2 := euclidean_distance top_inner bottom_inner
  let h := euclidean_distance outer inner
  if h < 1/1000000 then 0
  else (v1 + v2) / (2 * h)

/-! ## Theorems -/

/-- C4: gaze direction classification is a pure function of the smoothed
angle and the thresholds (left=-20, right=20, center-tolerance=12): `left`
below -20, `right` above 20, `center` on [-12, 12], `left` on [-20, -12),
`right` on (12, 20]; the listed boundary and sample values resolve as the
spec documents (±12 center, -20 left, +20 right, 0 center, -25 left,
25 right, -15 left, 15 right). -/
theorem gaze_direction_classification (a : ℚ) :
    (a < -20 → get_gaze_direction a = "left") ∧
    (20 < a → get_gaze_direction a = "right") ∧
    (-12 ≤ a ∧ a ≤ 12 → get_gaze_direction a = "center") ∧
    (-20 ≤ a ∧ a < -12 → get_gaze_direction a = "left") ∧
    (12 < a ∧ a ≤ 20 → get_gaze_direction a = "right") ∧
    get_gaze_direction 0 = "center" ∧
    get_gaze_direction (-25) = "left" ∧
    get_gaze_direction 25 = "right" ∧
    get_gaze_direction (-15) = "left" ∧
    get_gaze_direction 15 = "right" ∧
    get_gaze_direction (-12) = "center" ∧
    get_gaze_direction 12 = "center" ∧
    get_gaze_direction (-20) = "left" ∧
    get_gaze_direction 20 = "right" := by
  refine ⟨?_, ?_, ?_, ?_, ?_, by decide, by decide, by decide, by decide, by decide,
    by decide, by decide, by decide, by decide⟩ <;>
  · intro h
    simp only [get_gaze_direction, GAZE_LEFT_THRESHOLD, GAZE_RIGHT_THRESHOLD,
      GAZE_CENTER_THRESHOLD]
    split_ifs with h1 h2 h3 h4 <;> first
      | rfl
      | (exfalso; rcases h with ⟨hl, hr⟩ <;> first
          | (rcases h3 with ⟨h3l, h3r⟩; linarith)
          | linarith)
      | (exfalso; first
          | (rcases h3 with ⟨h3l, h3r⟩; linarith)
          | linarith)

/-- C4 witness: the theorem applied at angle -25 discharges its first
hypothesis and yields the classification there. -/
theorem gaze_direction_classification_witness :
    get_gaze_direction (-25) = "left" :=
  (gaze_direction_classification (-25)).1 (by norm_num)

/-- C7: gaze smoothing is an EMA with alpha = 2/(window+1), seeded with the
raw value; with window 3 (alpha = 1/2), inputs [10, 20] yield [10, 15]; and
an input equal to the current average is a fixed point, for a single update
and for any number of repeated identical inputs. -/
theorem ema_smoothing_spec :
    ema_alpha GAZE_SMOOTHING_WINDOW = 1/2 ∧
    run_smoothing (ema_alpha GAZE_SMOOTHING_WINDOW) none [10, 20] = [10, 15] ∧
    (∀ (w : ℕ) (e : ℚ), smooth_gaze_angle (ema_alpha w) (some e) e = e) ∧
    (∀ (alpha e : ℚ) (n : ℕ),
      run_smoothing alpha (some e) (List.replicate n e) = List.replicate n e) := by
  have hfix : ∀ (alpha e : ℚ), smooth_gaze_angle alpha (some e) e = e := by
    intro alpha e
    simp only [smooth_gaze_angle]
    ring
  refine ⟨by norm_num [ema_alpha, GAZE_SMOOTHING_WINDOW],
    by norm_num [run_smoothing, smooth_gaze_angle, ema_alpha, GAZE_SMOOTHING_WINDOW],
    fun w e => hfix _ e, fun alpha e n => ?_⟩
  induction n with
  | zero => rfl
  | succ n ih =>
      simp only [List.replicate_succ, run_smoothing, hfix, ih]

/-- C9: converting a point from pixel coordinates to normalized (0-1)
coordinates and back recovers the original point exactly (over exact
rational arithmetic), for any point strictly inside positive image bounds. -/
theorem coord_round_trip (p : ℚ × ℚ) (w h : ℤ) (hw : 0 < w) (hh : 0 < h)
    (hx0 : 0 < p.1) (hx1 : p.1 < w) (hy0 : 0 < p.2) (hy1 : p.2 < h) :
    normalize_to_image_coords (image_to_normalized_coords p w h) w h = p := by
  have hw' : (w : ℚ) ≠ 0 := by
    exact_mod_cast hw.ne'
  have hh' : (h : ℚ) ≠ 0 := by
    exact_mod_cast hh.ne'
  simp only [image_to_normalized_coords, if_pos (And.intro hw hh),
    normalize_to_image_coords, div_mul_cancel₀ _ hw', div_mul_cancel₀ _ hh']

/-- C9 witness: the round trip at the concrete point (3/2, 5/2) inside a
4 x 3 image. -/
theorem coord_round_trip_witness :
    normalize_to_image_coords (image_to_normalized_coords (3/2, 5/2) 4 3) 4 3 = (3/2, 5/2) :=
  coord_round_trip (3/2, 5/2) 4 3 (by norm_num) (by norm_num) (by norm_num) (by norm_num)
    (by norm_num) (by norm_num)

/-- C10: with both EARs present (and hence the average present), blink and
both per-eye closed flags are all derived from the two-eye average compared
to the 0.25 threshold — so one closed eye plus one open eye with an average
at or above threshold reports both eyes open and no blink; the individual
EARs decide the flags only when the average is absent. -/
theorem blink_uses_average_ear (l r : ℚ) :
    ((detect_blink (some l) (some r) (some ((l + r) / 2))).is_blinking
        = decide ((l + r) / 2 < BLINK_EAR_THRESHOLD) ∧
      (detect_blink (some l) (some r) (some ((l + r) / 2))).left_eye_closed
        = decide ((l + r) / 2 < BLINK_EAR_THRESHOLD) ∧
      (detect_blink (some l) (some r) (some ((l + r) / 2))).right_eye_closed
        = decide ((l + r) / 2 < BLINK_EAR_THRESHOLD)) ∧
    (l < BLINK_EAR_THRESHOLD → BLINK_EAR_THRESHOLD ≤ (l + r) / 2 →
      (detect_blink (some l) (some r) (some ((l + r) / 2))).is_blinking = false ∧
      (detect_blink (some l) (some r) (some ((l + r) / 2))).left_eye_closed = false ∧
      (detect_blink (some l) (some r) (some ((l + r) / 2))).right_eye_closed = false) ∧
    ((detect_blink (some l) none none).is_blinking = decide (l < BLINK_EAR_THRESHOLD) ∧
      (detect_blink (some l) none none).left_eye_closed = decide (l < BLINK_EAR_THRESHOLD) ∧
      (detect_blink none (some r) none).is_blinking = decide (r < BLINK_EAR_THRESHOLD) ∧
      (detect_blink none (some r) none).right_eye_closed = decide (r < BLINK_EAR_THRESHOLD)) := by
  refine ⟨⟨rfl, ?_, ?_⟩, fun hl havg => ?_, ⟨?_, ?_, ?_, ?_⟩⟩
  · simp [detect_blink]
  · simp [detect_blink]
  · rw [show BLINK_EAR_THRESHOLD = 1/4 from rfl] at hl havg
    simp only [detect_blink, BLINK_EAR_THRESHOLD]
    norm_num
    linarith
  · simp [detect_blink]
  · simp [detect_blink]
  · simp [detect_blink]
  · simp [detect_blink]

/-- C10 witness: left EAR 0.1 (closed on its own), right EAR 0.5 (open),
average 0.3 at or above the 0.25 threshold: both eyes reported open, no
blink. -/
theorem blink_uses_average_ear_witness :
    (detect_blink (some (1/10)) (some (1/2)) (some ((1/10 + 1/2) / 2))).is_blinking = false ∧
    (detect_blink (some (1/10)) (some (1/2)) (some ((1/10 + 1/2) / 2))).left_eye_closed = false ∧
    (detect_blink (some (1/10)) (some (1/2)) (some ((1/10 + 1/2) / 2))).right_eye_closed = false :=
  (blink_uses_average_ear (1/10) (1/2)).2.1 (by norm_num [BLINK_EAR_THRESHOLD])
    (by norm_num [BLINK_EAR_THRESHOLD])

/-- Helper: a list of values each at least `a` has sum at least
`length * a`. -/
theorem length_mul_le_sum (l : List ℚ) (a : ℚ) (h : ∀ x ∈ l, a ≤ x) :
    (l.length : ℚ) * a ≤ l.sum := by
  induction l with
  | nil => simp
  | cons x xs ih =>
      have hx := h x (List.mem_cons_self x xs)
      have hxs := ih fun y hy => h y (List.mem_cons_of_mem x hy)
      simp only [List.length_cons, List.sum_cons]
      push_cast
      have hring : ((xs.length : ℚ) + 1) * a = (xs.length : ℚ) * a + a := by ring
      linarith

/-- Helper for C5: after pushing one more score, a history of at least one
sample all at least 9/10 plus one nonnegative newcomer still averages at
least the 0.3 quality floor. -/
theorem avg_quality_push_high (hist : List ℚ) (q : ℚ) (hq : ∀ x ∈ hist, 9/10 ≤ x)
    (hne : hist ≠ []) (hq0 : 0 ≤ q) :
    GAZE_MIN_QUALITY ≤ avg_quality (push_quality hist q) := by
  have hn : 1 ≤ hist.length := List.length_pos.mpr hne
  rw [show GAZE_MIN_QUALITY = 3/10 from rfl]
  unfold push_quality
  split_ifs with hgt
  · -- history was full: the oldest entry is dropped
    rw [List.drop_append_of_le_length (by omega)]
    have hlen : ((hist.drop 1) ++ [q]).length = hist.length := by
      simp
      omega
    have hsum : ((hist.length : ℚ) - 1) * (9/10) ≤ (hist.drop 1).sum := by
      have := length_mul_le_sum (hist.drop 1) (9/10)
        (fun x hx => hq x (List.mem_of_mem_drop hx))
      have hcast : ((hist.drop 1).length : ℚ) = (hist.length : ℚ) - 1 := by
        rw [List.length_drop]
        push_cast [Nat.cast_sub hn]
        ring
      linarith [hcast ▸ this]
    have h10 : (10 : ℚ) ≤ (hist.length : ℚ) := by
      have : 10 ≤ hist.length := by
        simp at hgt
        omega
      exact_mod_cast this
    have hnz : ((hist.drop 1) ++ [q]) ≠ [] := by simp
    rw [avg_quality, if_neg hnz, hlen, le_div_iff (by linarith)]
    have : ((hist.drop 1) ++ [q]).sum = (hist.drop 1).sum + q := by simp
    rw [this]
    linarith
  · rw [avg_quality, if_neg (by simp)]
    have hsum : (hist.length : ℚ) * (9/10) ≤ hist.sum := length_mul_le_sum hist (9/10) hq
    have hlen : ((hist ++ [q]).length : ℚ) = (hist.length : ℚ) + 1 := by
      push_cast
      simp
    have hn' : (1 : ℚ) ≤ (hist.length : ℚ) := by exact_mod_cast hn
    rw [hlen, le_div_iff (by linarith)]
    have : (hist ++ [q]).sum = hist.sum + q := by simp
    rw [this]
    linarith

/-- C5: a sample that reaches the quality check is rejected (gaze not
detected) precisely when the current score is below 0.2 AND the rolling
average (over the history just updated with it, at most 10 samples) is
below the 0.3 floor; the history stays bounded by 10; and a single
low-quality frame among a nonempty history of high-quality (at least
9/10) frames is still accepted. -/
theorem gaze_rejection_policy (hist : List ℚ) (q : ℚ) :
    ((gaze_quality_gate hist q).1 = false ↔
      q < 1/5 ∧ avg_quality (push_quality hist q) < GAZE_MIN_QUALITY) ∧
    (hist.length ≤ 10 → (push_quality hist q).length ≤ 10) ∧
    ((∀ x ∈ hist, 9/10 ≤ x) → hist ≠ [] → 0 ≤ q → (gaze_quality_gate hist q).1 = true) := by
  refine ⟨?_, ?_, ?_⟩
  · simp only [gaze_quality_gate]
    split_ifs with hcond
    · simpa using hcond
    · simpa using hcond
  · intro hlen
    unfold push_quality
    split_ifs with hgt
    · simpa using hlen
    · simp at hgt ⊢
      omega
  · intro hq hne hq0
    have havg := avg_quality_push_high hist q hq hne hq0
    simp only [gaze_quality_gate]
    rw [if_neg fun hc => absurd hc.2 (not_lt.mpr havg)]

/-- C5 witness: history [1, 1] (high quality), current score 0: the sample
is still accepted. -/
theorem gaze_rejection_policy_witness :
    (gaze_quality_gate [1, 1] 0).1 = true :=
  (gaze_rejection_policy [1, 1] 0).2.2 (by norm_num) (by simp) le_rfl

/-- If `_can_take_snapshot` returned True, the cooldown test passed. -/
theorem can_take_cooldown (cfg : SnapCfg) (st : SnapState) (v : String) (now : ℚ)
    (h : can_take_snapshot cfg st v now = true) :
    cfg.cooldown_seconds ≤ now - ((st.snapshot_cooldowns v).getD 0) := by
  unfold can_take_snapshot at h
  split_ifs at h with h1 h2 h3 h4 <;> try simp at h
  exact not_lt.mp h4

/-- If `_can_take_snapshot` returned True, the session cap test passed. -/
theorem can_take_cap (cfg : SnapCfg) (st : SnapState) (v : String) (now : ℚ)
    (h : can_take_snapshot cfg st v now = true) :
    ¬(0 < cfg.max_per_session ∧ cfg.max_per_session ≤ st.snapshot_count) := by
  unfold can_take_snapshot at h
  split_ifs at h with h1 h2 h3 <;> try simp at h
  exact h3

/-- Unfolding equation: empty violation list. -/
theorem snapshot_pass_nil (cfg : SnapCfg) (now : ℚ) (wk : String → Bool) (st : SnapState) :
    snapshot_pass cfg now wk st [] = (st, []) := rfl

/-- Unfolding equation: inactive violation or cooldown/cap rejection. -/
theorem snapshot_pass_skip (cfg : SnapCfg) (now : ℚ) (wk : String → Bool) (st : SnapState)
    (v : String) (active : Bool) (rest : List (String × Bool))
    (h : ¬(active = true ∧ can_take_snapshot cfg st v now = true)) :
    snapshot_pass cfg now wk st ((v, active) :: rest) = snapshot_pass cfg now wk st rest := by
  simp only [snapshot_pass]
  rw [if_neg h]

/-- Unfolding equation: capture attempted but the image write failed. -/
theorem snapshot_pass_write_fail (cfg : SnapCfg) (now : ℚ) (wk : String → Bool) (st : SnapState)
    (v : String) (active : Bool) (rest : List (String × Bool))
    (hc : active = true ∧ can_take_snapshot cfg st v now = true) (hw : wk v = false) :
    snapshot_pass cfg now wk st ((v, active) :: rest) = snapshot_pass cfg now wk st rest := by
  simp only [snapshot_pass]
  rw [if_pos hc]
  simp [take_snapshot, hw]

/-- Unfolding equation: successful capture. -/
theorem snapshot_pass_capture (cfg : SnapCfg) (now : ℚ) (wk : String → Bool) (st : SnapState)
    (v : String) (active : Bool) (rest : List (String × Bool))
    (hc : active = true ∧ can_take_snapshot cfg st v now = true) (hw : wk v = true) :
    snapshot_pass cfg now wk st ((v, active) :: rest) =
      ((snapshot_pass cfg now wk (take_snapshot st v now true).1 rest).1,
        v :: (snapshot_pass cfg now wk (take_snapshot st v now true).1 rest).2) := by
  simp only [snapshot_pass]
  rw [if_pos hc, hw]
  simp [take_snapshot]

/-- A successful capture's state update, read back per key. -/
theorem take_snapshot_cooldowns (st : SnapState) (v : String) (now : ℚ) (u : String) :
    (take_snapshot st v now true).1.snapshot_cooldowns u
      = if u = v then some now else st.snapshot_cooldowns u := by
  simp [take_snapshot]

/-- Invariants of one frame's snapshot loop: every captured type passed the
cooldown test against the incoming state, the outgoing cooldown dict marks
exactly the captured types with the frame time, and no type is captured
twice in one frame. -/
theorem snapshot_pass_spec (cfg : SnapCfg) (hcd : 0 < cfg.cooldown_seconds) (now : ℚ)
    (wk : String → Bool) :
    ∀ (vl : List (String × Bool)) (st : SnapState),
      (∀ v ∈ (snapshot_pass cfg now wk st vl).2, ∀ t,
          st.snapshot_cooldowns v = some t → t + cfg.cooldown_seconds ≤ now) ∧
      (∀ v, (snapshot_pass cfg now wk st vl).1.snapshot_cooldowns v =
        if v ∈ (snapshot_pass cfg now wk st vl).2 then some now
        else st.snapshot_cooldowns v) ∧
      (snapshot_pass cfg now wk st vl).2.Nodup := by
  intro vl
  induction vl with
  | nil =>
      intro st
      refine ⟨?_, ?_, ?_⟩ <;> simp [snapshot_pass_nil]
  | cons p rest ih =>
      intro st
      obtain ⟨v, active⟩ := p
      by_cases hc : active = true ∧ can_take_snapshot cfg st v now = true
      · cases hb : wk v with
        | false =>
            rw [snapshot_pass_write_fail cfg now wk st v active rest hc hb]
            exact ih st
        | true =>
            rw [snapshot_pass_capture cfg now wk st v active rest hc hb]
            obtain ⟨ih1, ih2, ih3⟩ := ih (take_snapshot st v now true).1
            have hvout : v ∉ (snapshot_pass cfg now wk (take_snapshot st v now true).1 rest).2 := by
              intro hmem
              have := ih1 v hmem now (by rw [take_snapshot_cooldowns]; simp)
              linarith
            refine ⟨?_, ?_, ?_⟩
            · intro u hu t hut
              dsimp only at hu
              rcases List.mem_cons.mp hu with rfl | hmem
              · have hle := can_take_cooldown cfg st u now hc.2
                rw [hut] at hle
                simp at hle
                linarith
              · have huv : u ≠ v := by
                  intro heq
                  exact hvout (heq ▸ hmem)
                refine ih1 u hmem t ?_
                rw [take_snapshot_cooldowns, if_neg huv]
                exact hut
            · intro u
              dsimp only
              have h2 := ih2 u
              by_cases hmem : u ∈ (snapshot_pass cfg now wk (take_snapshot st v now true).1 rest).2
              · rw [h2, if_pos hmem, if_pos (List.mem_cons_of_mem v hmem)]
              · rw [h2, if_neg hmem, take_snapshot_cooldowns]
                by_cases huv : u = v
                · rw [if_pos huv, if_pos (by simp [huv])]
                · rw [if_neg huv, if_neg (by simp [huv, hmem])]
            · exact List.nodup_cons.mpr ⟨hvout, ih3⟩
      · rw [snapshot_pass_skip cfg now wk st v active rest hc]
        exact ih st

/-- Counter bookkeeping of one frame's snapshot loop: the counter grows by
exactly the number of captures, and a positive session cap is never
exceeded once respected. -/
theorem snapshot_pass_count (cfg : SnapCfg) (now : ℚ) (wk : String → Bool) :
    ∀ (vl : List (String × Bool)) (st : SnapState),
      ((snapshot_pass cfg now wk st vl).1.snapshot_count
          = st.snapshot_count + (snapshot_pass cfg now wk st vl).2.length) ∧
      (0 < cfg.max_per_session → st.snapshot_count ≤ cfg.max_per_session →
        (snapshot_pass cfg now wk st vl).1.snapshot_count ≤ cfg.max_per_session) := by
  intro vl
  induction vl with
  | nil => intro st; simp [snapshot_pass_nil]
  | cons p rest ih =>
      intro st
      obtain ⟨v, active⟩ := p
      by_cases hc : active = true ∧ can_take_snapshot cfg st v now = true
      · cases hb : wk v with
        | false =>
            rw [snapshot_pass_write_fail cfg now wk st v active rest hc hb]
            exact ih st
        | true =>
            rw [snapshot_pass_capture cfg now wk st v active rest hc hb]
            obtain ⟨ih1, ih2⟩ := ih (take_snapshot st v now true).1
            have hcnt : (take_snapshot st v now true).1.snapshot_count
                = st.snapshot_count + 1 := by
              simp [take_snapshot]
            constructor
            · dsimp only
              rw [ih1, hcnt, List.length_cons]
              omega
            · intro hpos hle
              have hcap := can_take_cap cfg st v now hc.2
              have hlt : st.snapshot_count < cfg.max_per_session := by
                by_contra hge
                exact hcap ⟨hpos, le_of_not_lt hge⟩
              exact ih2 hpos (by omega)
      · rw [snapshot_pass_skip cfg now wk st v active rest hc]
        exact ih st

/-- `_process_violation_snapshots` satisfies the same per-frame invariants
(the disabled case captures nothing and changes nothing). -/
theorem process_snapshots_spec (cfg : SnapCfg) (hcd : 0 < cfg.cooldown_seconds)
    (st : SnapState) (now : ℚ) (violations : List (String × Bool)) (wk : String → Bool) :
    (∀ v ∈ (process_violation_snapshots cfg st now violations wk).2, ∀ t,
        st.snapshot_cooldowns v = some t → t + cfg.cooldown_seconds ≤ now) ∧
    (∀ v, (process_violation_snapshots cfg st now violations wk).1.snapshot_cooldowns v =
      if v ∈ (process_violation_snapshots cfg st now violations wk).2 then some now
      else st.snapshot_cooldowns v) ∧
    (process_violation_snapshots cfg st now violations wk).2.Nodup := by
  unfold process_violation_snapshots
  split_ifs with hdis
  · simp
  · exact snapshot_pass_spec cfg hcd now wk violations st

/-- `_process_violation_snapshots` counter bookkeeping. -/
theorem process_snapshots_count (cfg : SnapCfg) (st : SnapState) (now : ℚ)
    (violations : List (String × Bool)) (wk : String → Bool) :
    ((process_violation_snapshots cfg st now violations wk).1.snapshot_count
        = st.snapshot_count + (process_violation_snapshots cfg st now violations wk).2.length) ∧
    (0 < cfg.max_per_session → st.snapshot_count ≤ cfg.max_per_session →
      (process_violation_snapshots cfg st now violations wk).1.snapshot_count
        ≤ cfg.max_per_session) := by
  unfold process_violation_snapshots
  split_ifs with hdis
  · simp
  · exact snapshot_pass_count cfg now wk violations st

/-- Unfolding equation for `run_session` on a frame. -/
theorem run_session_cons (cfg : SnapCfg) (st : SnapState) (f : SnapFrame)
    (fs : List SnapFrame) :
    run_session cfg st (f :: fs) =
      ((run_session cfg (process_violation_snapshots cfg st f.time f.violations f.write_ok).1 fs).1,
        (process_violation_snapshots cfg st f.time f.violations f.write_ok).2.map
            (fun v => (f.time, v)) ++
          (run_session cfg (process_violation_snapshots cfg st f.time f.violations f.write_ok).1 fs).2) :=
  rfl

/-- Session-level cooldown invariant: every capture event respects the
recorded last-capture times of the starting state, and the event list is
pairwise separated by the cooldown within each violation type. -/
theorem run_session_sep (cfg : SnapCfg) (hcd : 0 < cfg.cooldown_seconds) :
    ∀ (fs : List SnapFrame) (st : SnapState),
      (∀ e ∈ (run_session cfg st fs).2, ∀ t,
          st.snapshot_cooldowns e.2 = some t → t + cfg.cooldown_seconds ≤ e.1) ∧
      captures_separated cfg.cooldown_seconds (run_session cfg st fs).2 := by
  intro fs
  induction fs with
  | nil => intro st; simp [run_session, captures_separated]
  | cons f fs ih =>
      intro st
      obtain ⟨p1, p2, p3⟩ := process_snapshots_spec cfg hcd st f.time f.violations f.write_ok
      obtain ⟨ihA, ihSep⟩ := ih (process_violation_snapshots cfg st f.time f.violations f.write_ok).1
      rw [run_session_cons]
      constructor
      · intro e he t het
        dsimp only at he
        rcases List.mem_append.mp he with hm | hm
        · obtain ⟨v, hv, rfl⟩ := List.mem_map.mp hm
          exact p1 v hv t het
        · by_cases hmem : e.2 ∈ (process_violation_snapshots cfg st f.time f.violations f.write_ok).2
          · have hcool : (process_violation_snapshots cfg st f.time f.violations f.write_ok).1.snapshot_cooldowns e.2
                = some f.time := by
              rw [p2, if_pos hmem]
            have h1 := ihA e hm f.time hcool
            have h2 := p1 e.2 hmem t het
            linarith
          · have hcool : (process_violation_snapshots cfg st f.time f.violations f.write_ok).1.snapshot_cooldowns e.2
                = some t := by
              rw [p2, if_neg hmem]
              exact het
            exact ihA e hm t hcool
      · unfold captures_separated
        dsimp only
        rw [List.pairwise_append]
        refine ⟨?_, ihSep, ?_⟩
        · rw [List.pairwise_map]
          exact p3.imp fun hab heq => absurd heq hab
        · intro e1 h1 e2 h2 heq
          obtain ⟨v, hv, rfl⟩ := List.mem_map.mp h1
          have hveq : v = e2.2 := heq
          have hcool : (process_violation_snapshots cfg st f.time f.violations f.write_ok).1.snapshot_cooldowns e2.2
              = some f.time := by
            rw [p2, if_pos (hveq ▸ hv)]
          exact ihA e2 h2 f.time hcool

/-- Session-level counter bookkeeping: the final counter equals the number
of capture events, and a positive cap is never exceeded. -/
theorem run_session_count (cfg : SnapCfg) :
    ∀ (fs : List SnapFrame) (st : SnapState),
      ((run_session cfg st fs).1.snapshot_count
          = st.snapshot_count + (run_session cfg st fs).2.length) ∧
      (0 < cfg.max_per_session → st.snapshot_count ≤ cfg.max_per_session →
        (run_session cfg st fs).1.snapshot_count ≤ cfg.max_per_session) := by
  intro fs
  induction fs with
  | nil => intro st; simp [run_session]
  | cons f fs ih =>
      intro st
      obtain ⟨pc, pcap⟩ := process_snapshots_count cfg st f.time f.violations f.write_ok
      obtain ⟨ihc, ihcap⟩ := ih (process_violation_snapshots cfg st f.time f.violations f.write_ok).1
      rw [run_session_cons]
      constructor
      · dsimp only
        rw [ihc, pc]
        simp [List.length_append, List.length_map]
        omega
      · intro hpos hle
        exact ihcap hpos (pcap hpos hle)

/-- C1: over any session (any frame sequence, any pattern of active
violations, any pattern of write successes) run under the config.py
defaults (cooldown = 7 s), any two successful captures of the same
violation type are at least 7 seconds apart — equivalently, no 7-second
window contains two captures of one type; moreover a capture of one type
leaves every other type's last-capture entry untouched (cooldowns are
tracked per type). -/
theorem snapshot_cooldown_per_type (vs : List String) (frames : List SnapFrame) :
    captures_separated SNAPSHOT_COOLDOWN_SECONDS
        (run_session default_snap_cfg (initial_snap_state vs) frames).2 ∧
    (∀ (st : SnapState) (v u : String) (now : ℚ) (write_ok : Bool), u ≠ v →
      (take_snapshot st v now write_ok).1.snapshot_cooldowns u
        = st.snapshot_cooldowns u) := by
  constructor
  · exact (run_session_sep default_snap_cfg
      (by norm_num [default_snap_cfg, SNAPSHOT_COOLDOWN_SECONDS]) frames
      (initial_snap_state vs)).2
  · intro st v u now wo hne
    cases wo
    · simp [take_snapshot]
    · simp [take_snapshot, hne]

/-- C1 witness: a one-frame session capturing `phone_violation` at t = 0,
and the per-type independence instantiated at distinct concrete types. -/
theorem snapshot_cooldown_per_type_witness :
    captures_separated SNAPSHOT_COOLDOWN_SECONDS
        (run_session default_snap_cfg (initial_snap_state ["phone_violation"])
          [⟨0, [("phone_violation", true)], fun _ => true⟩]).2 ∧
    (take_snapshot (initial_snap_state ["phone_violation"]) "phone_violation" 0
        true).1.snapshot_cooldowns "multiple_persons"
      = (initial_snap_state ["phone_violation"]).snapshot_cooldowns "multiple_persons" :=
  ⟨(snapshot_cooldown_per_type ["phone_violation"]
      [⟨0, [("phone_violation", true)], fun _ => true⟩]).1,
    (snapshot_cooldown_per_type ["phone_violation"]
      [⟨0, [("phone_violation", true)], fun _ => true⟩]).2 _ _ _ _ _ (by decide)⟩

/-- C2: with a positive per-session cap, the total number of successful
captures over a whole session never exceeds the cap, for any frames, any
violation types (the cap is global across types) and any session length;
the session counter obeys the same bound. -/
theorem snapshot_session_cap (cfg : SnapCfg) (hcap : 0 < cfg.max_per_session)
    (vs : List String) (frames : List SnapFrame) :
    (run_session cfg (initial_snap_state vs) frames).2.length ≤ cfg.max_per_session ∧
    (run_session cfg (initial_snap_state vs) frames).1.snapshot_count
      ≤ cfg.max_per_session := by
  obtain ⟨hc, hcap'⟩ := run_session_count cfg frames (initial_snap_state vs)
  have hzero : (initial_snap_state vs).snapshot_count = 0 := rfl
  have hle := hcap' hcap (by rw [hzero]; exact Nat.zero_le _)
  constructor
  · rw [hzero] at hc
    omega
  · exact hle

/-- C2 witness: the cap theorem applied to the config.py default cap of 100
on a concrete one-frame session. -/
theorem snapshot_session_cap_witness :
    (run_session default_snap_cfg (initial_snap_state ["phone_violation"])
        [⟨0, [("phone_violation", true)], fun _ => true⟩]).2.length
      ≤ default_snap_cfg.max_per_session :=
  (snapshot_session_cap default_snap_cfg (by norm_num [default_snap_cfg, MAX_SNAPSHOTS_PER_SESSION])
    ["phone_violation"] [⟨0, [("phone_violation", true)], fun _ => true⟩]).1

/-- C3: a failed image write leaves the capture ledger untouched — the
state (cooldown dict and counter) is returned unchanged and no path is
reported — and the frame's violation loop simply continues with the
remaining violation types, exactly as if the failed attempt had not
happened. -/
theorem snapshot_write_failure_preserves_ledger :
    (∀ (st : SnapState) (v : String) (now : ℚ), take_snapshot st v now false = (st, none)) ∧
    (∀ (cfg : SnapCfg) (now : ℚ) (wk : String → Bool) (st : SnapState) (v : String)
        (rest : List (String × Bool)), wk v = false →
      snapshot_pass cfg now wk st ((v, true) :: rest) = snapshot_pass cfg now wk st rest) := by
  constructor
  · intro st v now
    simp [take_snapshot]
  · intro cfg now wk st v rest hw
    by_cases hc : can_take_snapshot cfg st v now = true
    · exact snapshot_pass_write_fail cfg now wk st v true rest ⟨rfl, hc⟩ hw
    · exact snapshot_pass_skip cfg now wk st v true rest fun h => hc h.2

/-- C3 witness: a failing write at concrete inputs changes nothing and the
loop continues past it. -/
theorem snapshot_write_failure_preserves_ledger_witness :
    take_snapshot (initial_snap_state ["phone_violation"]) "phone_violation" 0 false
        = (initial_snap_state ["phone_violation"], none) ∧
    snapshot_pass default_snap_cfg 0 (fun _ => false) (initial_snap_state ["phone_violation"])
        [("phone_violation", true)]
      = snapshot_pass default_snap_cfg 0 (fun _ => false)
          (initial_snap_state ["phone_violation"]) [] :=
  ⟨snapshot_write_failure_preserves_ledger.1 _ _ _,
    snapshot_write_failure_preserves_ledger.2 _ _ _ _ _ _ rfl⟩

/-- The validity flag of `validate_config` is exactly "errors list empty". -/
theorem validate_config_fst (c : Config) :
    (validate_config c).1 = ((validate_config c).2.length == 0) := rfl

/-- If some error string is in the list, the config is reported invalid. -/
theorem validate_config_false_of_mem (c : Config) (s : String)
    (hs : s ∈ (validate_config c).2) : (validate_config c).1 = false := by
  rw [validate_config_fst]
  have hne : (validate_config c).2 ≠ [] := List.ne_nil_of_mem hs
  have hlen : (validate_config c).2.length ≠ 0 := by simpa using hne
  simpa using hlen

/-- A gaze-threshold ordering violation: config.py's values with
`GAZE_LEFT_THRESHOLD` raised to 30 (≥ the right threshold of 20). -/
def invalid_gaze_config : Config :=
  { default_config with GAZE_LEFT_THRESHOLD := 30 }

/-- C6 counterexample: under a configuration whose gaze threshold ordering
is violated, `validate_config` does report invalid — but import merely
warns (the module still loads) and `CameraProcessor.initialize` succeeds
whenever camera and models are available, so frame processing DOES begin
under an invalid configuration, contradicting "fatal: frame processing
must not begin". -/
theorem config_invalid_fatal_counterexample :
    (validate_config invalid_gaze_config).1 = false ∧
    (config_module_load invalid_gaze_config).loaded = true ∧
    initialize_processor invalid_gaze_config ⟨true, true, true⟩ = true := by
  refine ⟨?_, rfl, rfl⟩
  apply validate_config_false_of_mem invalid_gaze_config
    "GAZE_LEFT_THRESHOLD must be less than GAZE_RIGHT_THRESHOLD"
  have hord : invalid_gaze_config.GAZE_LEFT_THRESHOLD ≥
      invalid_gaze_config.GAZE_RIGHT_THRESHOLD := by
    norm_num [invalid_gaze_config, default_config]
  simp [validate_config, hord]

/-- C6 (amended): an invalid configuration — gaze threshold ordering
violated, head-pose facing range ordering violated, or non-positive camera
dimensions — is detected at startup by `validate_config`, and surfaced
immediately as a warning when the module is imported; but it is NOT fatal:
the module still loads, and `CameraProcessor.initialize` never consults
configuration validity, succeeding whenever the camera and the enabled
detector models are available, so frame processing can begin regardless. -/
theorem config_invalid_detected_warns_not_fatal (c : Config) :
    (c.GAZE_LEFT_THRESHOLD ≥ c.GAZE_RIGHT_THRESHOLD → (validate_config c).1 = false) ∧
    (c.HEAD_FACING_SCREEN_YAW_MIN ≥ c.HEAD_FACING_SCREEN_YAW_MAX →
      (validate_config c).1 = false) ∧
    (c.HEAD_FACING_SCREEN_PITCH_MIN ≥ c.HEAD_FACING_SCREEN_PITCH_MAX →
      (validate_config c).1 = false) ∧
    ((c.CAMERA_WIDTH ≤ 0 ∨ c.CAMERA_HEIGHT ≤ 0) → (validate_config c).1 = false) ∧
    ((validate_config c).1 = false →
      (config_module_load c).warns = true ∧ (config_module_load c).loaded = true) ∧
    (∀ env : InitEnv, env.camera_ok = true → env.object_model_ok = true →
      env.face_mesh_ok = true → initialize_processor c env = true) := by
  refine ⟨fun h => ?_, fun h => ?_, fun h => ?_, fun h => ?_, fun h => ?_, fun env h1 h2 h3 => ?_⟩
  · apply validate_config_false_of_mem c
      "GAZE_LEFT_THRESHOLD must be less than GAZE_RIGHT_THRESHOLD"
    simp [validate_config, h]
  · apply validate_config_false_of_mem c
      "HEAD_FACING_SCREEN_YAW_MIN must be less than HEAD_FACING_SCREEN_YAW_MAX"
    simp [validate_config, h]
  · apply validate_config_false_of_mem c
      "HEAD_FACING_SCREEN_PITCH_MIN must be less than HEAD_FACING_SCREEN_PITCH_MAX"
    simp [validate_config, h]
  · apply validate_config_false_of_mem c "Camera dimensions must be positive"
    simp [validate_config, h]
  · simp [config_module_load, h]
  · simp [initialize_processor, h1, h2, h3]

/-- C6 witness: the amended theorem instantiated at the concrete invalid
config (left threshold 30 ≥ right threshold 20): detected, warned, module
loaded, and initialize still succeeds with all resources available. -/
theorem config_invalid_detected_warns_not_fatal_witness :
    (validate_config invalid_gaze_config).1 = false ∧
    (config_module_load invalid_gaze_config).warns = true ∧
    initialize_processor invalid_gaze_config ⟨true, true, true⟩ = true := by
  have hord : invalid_gaze_config.GAZE_LEFT_THRESHOLD ≥
      invalid_gaze_config.GAZE_RIGHT_THRESHOLD := by
    norm_num [invalid_gaze_config, default_config]
  have hinv := (config_invalid_detected_warns_not_fatal invalid_gaze_config).1 hord
  exact ⟨hinv,
    ((config_invalid_detected_warns_not_fatal invalid_gaze_config).2.2.2.2.1 hinv).1,
    (config_invalid_detected_warns_not_fatal invalid_gaze_config).2.2.2.2.2 ⟨true, true, true⟩
      rfl rfl rfl⟩

/-- C8 counterexample: `calculate_ear_from_coords` at landmarks whose
horizontal (outer-to-inner) distance is 1e-7 — nonzero, but below the 1e-6
guard — returns the float 0.0, not the EAR formula value (which is 1e7
here), refuting "the ratio equals the formula whenever the horizontal
distance is nonzero" and "an undefined/absent value is returned". -/
theorem ear_small_horizontal_counterexample :
    euclidean_distance ((0 : ℝ), (0 : ℝ)) (1/10000000, 0) ≠ 0 ∧
    calculate_ear_from_coords ((0 : ℝ), (0 : ℝ)) (1/10000000, 0) (0, 1) (0, 0) (0, 1) (0, 0) = 0 ∧
    (euclidean_distance ((0 : ℝ), (1 : ℝ)) (0, 0) + euclidean_distance ((0 : ℝ), (1 : ℝ)) (0, 0)) /
        (2 * euclidean_distance ((0 : ℝ), (0 : ℝ)) (1/10000000, 0)) = 10000000 := by
  have hd : euclidean_distance ((0 : ℝ), (0 : ℝ)) (1/10000000, 0) = 1/10000000 := by
    unfold euclidean_distance
    rw [show ((0 : ℝ) - 1/10000000) ^ 2 + ((0 : ℝ) - 0) ^ 2 = (1/10000000) ^ 2 by ring]
    rw [Real.sqrt_sq (by norm_num)]
  have hv : euclidean_distance ((0 : ℝ), (1 : ℝ)) (0, 0) = 1 := by
    unfold euclidean_distance
    norm_num
  refine ⟨by rw [hd]; norm_num, ?_, by rw [hd, hv]; norm_num⟩
  unfold calculate_ear_from_coords
  rw [hd, if_pos (by norm_num)]

/-- C8 (amended): the pipeline's per-eye EAR (`_calculate_eye_ear`) equals
(dist(top,bottom) + dist(top_inner,bottom_inner)) / (2·dist(outer,inner))
whenever the horizontal distance is nonzero, and returns an absent value
(None) exactly when that distance is exactly zero; the geometry utility
`calculate_ear_from_coords` instead returns the defined sentinel 0.0
whenever the horizontal distance is below 1e-6 (even when nonzero), and the
formula otherwise. -/
theorem eye_ear_zero_guard (outer inner top bottom top_inner bottom_inner : ℝ × ℝ) :
    (euclidean_distance outer inner = 0 →
      calculate_eye_ear outer inner top bottom top_inner bottom_inner = none) ∧
    (euclidean_distance outer inner ≠ 0 →
      calculate_eye_ear outer inner top bottom top_inner bottom_inner =
        some ((euclidean_distance top bottom + euclidean_distance top_inner bottom_inner) /
          (2 * euclidean_distance outer inner))) ∧
    (euclidean_distance outer inner < 1/1000000 →
      calculate_ear_from_coords outer inner top bottom top_inner bottom_inner = 0) ∧
    (¬ euclidean_distance outer inner < 1/1000000 →
      calculate_ear_from_coords outer inner top bottom top_inner bottom_inner =
        (euclidean_distance top bottom + euclidean_distance top_inner bottom_inner) /
          (2 * euclidean_distance outer inner)) := by
  refine ⟨fun h => ?_, fun h => ?_, fun h => ?_, fun h => ?_⟩
  · simp only [calculate_eye_ear]
    rw [if_pos h]
  · simp only [calculate_eye_ear]
    rw [if_neg h]
  · simp only [calculate_ear_from_coords]
    rw [if_pos h]
  · simp only [calculate_ear_from_coords]
    rw [if_neg h]

/-- C8 witness: coincident eye corners (horizontal distance exactly zero)
make the pipeline EAR absent rather than dividing by zero. -/
theorem eye_ear_zero_guard_witness :
    calculate_eye_ear ((0 : ℝ), (0 : ℝ)) (0, 0) (0, 1) (0, 0) (0, 1) (0, 0) = none :=
  (eye_ear_zero_guard ((0 : ℝ), (0 : ℝ)) (0, 0) (0, 1) (0, 0) (0, 1) (0, 0)).1
    (by unfold euclidean_distance; norm_num)

end LabGuard
